import Mathlib

/-!
Shallow embedding of `src/backend/app.py` (Flask Task CRUD service).

Modelling conventions:
* JSON values are the inductive `Json`; a parsed request body
  (`request.get_json()`) is `Option Body` where `Body` is an association
  list of key/value pairs (a Python dict; `none` models an absent /
  unparsable body, for which `get_json` yields `None`).
* The store (SQLAlchemy session + Postgres) is the explicit state `DB`:
  a list of rows, the autoincrement counter, and timestamps are supplied
  as a `Nat` clock argument `t` (the store clock at the request).
  The store is an external collaborator holding the rows the handlers
  write.  The one declared column constraint a handler-staged row can
  trip is `title` being `db.String(100), nullable=False`: the update
  commit models that NOT NULL check, raising `IntegrityError` when the
  staged row holds a SQL NULL title; the insert path is modelled as the
  store accepting the staged row.  `server_default=now()` sets
  both timestamps at insert; `onupdate=now()` refreshes `updated_at` on a
  successful update commit, modelled by writing the request clock `t`.
* Python exceptions raised inside a handler's `try:` block are the
  `Except PyExc` error channel; the `except Exception` clause is the
  `runHandler` wrapper, which rolls back (returns the pre-request state)
  and answers 500 with `str(e)`.  In particular
  `Task.query.get_or_404` raises `werkzeug.exceptions.NotFound`, which IS
  a subclass of `Exception`, so it is caught by the handler's own
  `except Exception` clause, not by Flask.
* `jsonify` serialises eagerly inside the `try:` block; a value that is
  not JSON-serialisable (such as the SQLAlchemy expression `db.func.now()`
  in `health_check`) raises a `TypeError` there, modelled by `PyVal` and
  `serializePyObj`.
-/

namespace TaskApp

/-- JSON values (the subset the service manipulates). -/
inductive Json where
  | null : Json
  | str : String → Json
  | bool : Bool → Json
  | num : Int → Json
  | arr : List Json → Json
  | obj : List (String × Json) → Json
deriving Repr

/-- A parsed JSON object body: a Python dict as an association list. -/
abbrev Body := List (String × Json)

/-- Python `data.get(key)` / `key in data`: first binding of `key`. -/
def jget (d : Body) (k : String) : Option Json :=
  (List.find? (fun p => p.1 == k) d).map (fun p => p.2)

/-- Whether a JSON value is `null` — written to a column it becomes SQL
NULL. -/
def Json.isNull : Json → Bool
  | .null => true
  | _ => false

/-- One row of the `task` table.  `title`, `description`, `completed`
hold the JSON values the handlers wrote (the code never coerces them). -/
structure Task where
  id : Nat
  title : Json
  description : Json
  completed : Json
  created_at : Nat
  updated_at : Nat
deriving Repr

/-- `Task.to_dict` from the source: the serialised representation.
Model timestamps serialise as their numeric value (`isoformat` of the
model clock); the row always has timestamps, so the `if ... else None`
branches of the source take the timestamp branch. -/
def Task.to_dict (t : Task) : Json :=
  .obj [("id", .num t.id), ("title", t.title),
        ("description", t.description), ("completed", t.completed),
        ("created_at", .num t.created_at), ("updated_at", .num t.updated_at)]

/-- The store state: the rows of the `task` table (in insertion order)
and the autoincrement counter for `id`. -/
structure DB where
  tasks : List Task
  nextId : Nat
deriving Repr

/-- An HTTP response: status code and (already serialised) JSON body.
A 204 carries the empty string body the source returns. -/
structure Response where
  status : Nat
  body : Json
deriving Repr

/-- The JSON error envelope the handlers build. -/
def errBody (msg : String) : Json := .obj [("error", .str msg)]

/-- Exceptions that can be raised inside a handler's try-block in the
model.  `notFound` is `werkzeug.exceptions.NotFound` as raised by
`Task.query.get_or_404`; `typeError` is the `TypeError` raised by
`jsonify` on a non-serialisable value. -/
inductive PyExc where
  | notFound : PyExc
  | typeError (msg : String) : PyExc
  | integrityError : PyExc
  | dbError (msg : String) : PyExc
deriving Repr, DecidableEq

/-- Python `str(e)` on the exceptions of the model.  For an
`HTTPException`, `str(e)` is `"{code} {name}: {description}"`; for the
`IntegrityError` the store raises on a NULL `title`, it is the
driver's NOT NULL violation message. -/
def PyExc.str : PyExc → String
  | .notFound => "404 Not Found: The requested URL was not found on the server. If you entered the URL manually please check your spelling and try again."
  | .typeError m => m
  | .integrityError => "(psycopg2.errors.NotNullViolation) null value in column \"title\" of relation \"task\" violates not-null constraint"
  | .dbError m => m

/-- The `except Exception as e:` clause wrapping every handler body:
roll the session back (state reverts to the pre-request state `s`) and
answer `jsonify({'error': str(e)}), 500`. -/
def runHandler (s : DB) (r : Except PyExc (Response × DB)) : Response × DB :=
  match r with
  | .ok x => x
  | .error e => (⟨500, errBody e.str⟩, s)

/-- `Task.query.get(task_id)`: primary-key lookup. -/
def findTask (tasks : List Task) (id : Nat) : Option Task :=
  tasks.find? (fun t => t.id == id)

/-- `Task.query.get_or_404(task_id)`: lookup, raising
`werkzeug.exceptions.NotFound` when no row matches. -/
def get_or_404 (tasks : List Task) (id : Nat) : Except PyExc Task :=
  match findTask tasks id with
  | some t => .ok t
  | none => .error .notFound

/-- Replace the row with primary key `id` by `t` (the UPDATE the
session flushes at commit). -/
def replaceTask (tasks : List Task) (id : Nat) (t : Task) : List Task :=
  tasks.map (fun u => if u.id == id then t else u)

/-- Remove the row with primary key `id` (`db.session.delete`). -/
def removeTask (tasks : List Task) (id : Nat) : List Task :=
  tasks.filter (fun u => u.id != id)

/-- Python truthiness of the parsed body: `not data` holds when
`get_json` gave `None` or the empty dict. -/
def dataFalsy : Option Body → Bool
  | none => true
  | some d => d.isEmpty

/-- The comparison of `Task.created_at.desc()`: row `a` comes no later
than row `b` when its `created_at` is no smaller. -/
def taskOrd (a b : Task) : Bool := b.created_at ≤ a.created_at

/-- `GET /api/tasks`: all rows ordered by `created_at` descending
(`Task.query.order_by(Task.created_at.desc()).all()`). -/
def sortedTasks (tasks : List Task) : List Task :=
  tasks.mergeSort taskOrd

/-- The `get_tasks` handler.  The query cannot fail in the model, so the
`except` branch is unreachable. -/
def get_tasks (s : DB) : Response × DB :=
  (⟨200, .arr ((sortedTasks s.tasks).map Task.to_dict)⟩, s)

/-- The `create_task` handler body.
`if not data or 'title' not in data: 400`, else insert a new row with
`title` from input, `description` defaulting to the empty string,
`completed` defaulting to `False`; store assigns `id` and timestamps. -/
def create_task (s : DB) (body : Option Body) (t : Nat) : Response × DB :=
  match body with
  | none => (⟨400, errBody "Title is required"⟩, s)
  | some data =>
    match jget data "title" with
    | none => (⟨400, errBody "Title is required"⟩, s)
    | some title =>
      let new_task : Task :=
        { id := s.nextId, title := title,
          description := (jget data "description").getD (.str ""),
          completed := (jget data "completed").getD (.bool false),
          created_at := t, updated_at := t }
      (⟨201, new_task.to_dict⟩,
       { tasks := s.tasks ++ [new_task], nextId := s.nextId + 1 })

/-- The merge of source lines 101-103:
`task.x = data.get('x', task.x)` for each of the three mutable fields —
a field is overwritten exactly when its key is present in the dict
(a present key with value `null` overwrites with `null`); the store
trigger `onupdate=db.func.now()` refreshes `updated_at` at commit. -/
def mergedTask (task : Task) (data : Body) (t : Nat) : Task :=
  { task with
    title := (jget data "title").getD task.title,
    description := (jget data "description").getD task.description,
    completed := (jget data "completed").getD task.completed,
    updated_at := t }

/-- The `update_task` try-block: `get_or_404`, then the falsy-body
check, then the field merge, then `db.session.commit()`.  The commit
flushes the merged row against the `title` column's NOT NULL
constraint (`db.String(100), nullable=False`): a staged SQL NULL title
makes the store raise `IntegrityError`, which propagates to the
handler's `except Exception` clause (rollback + 500); otherwise the
row is persisted. -/
def update_task_go (s : DB) (task_id : Nat) (body : Option Body) (t : Nat) :
    Except PyExc (Response × DB) :=
  match get_or_404 s.tasks task_id with
  | .error e => .error e
  | .ok task =>
    if dataFalsy body then
      .ok (⟨400, errBody "No data provided"⟩, s)
    else
      let task1 : Task := mergedTask task (body.getD []) t
      if task1.title.isNull then
        .error .integrityError
      else
        .ok (⟨200, task1.to_dict⟩,
             { s with tasks := replaceTask s.tasks task_id task1 })

/-- The `update_task` handler (`PUT /api/tasks/<id>`), with its
`except Exception` wrapper. -/
def update_task (s : DB) (task_id : Nat) (body : Option Body) (t : Nat) :
    Response × DB :=
  runHandler s (update_task_go s task_id body t)

/-- The `delete_task` try-block: `get_or_404`, physical row removal,
`'' , 204`. -/
def delete_task_go (s : DB) (task_id : Nat) : Except PyExc (Response × DB) :=
  match get_or_404 s.tasks task_id with
  | .error e => .error e
  | .ok task => .ok (⟨204, .str ""⟩, { s with tasks := removeTask s.tasks task.id })

/-- The `delete_task` handler (`DELETE /api/tasks/<id>`), with its
`except Exception` wrapper. -/
def delete_task (s : DB) (task_id : Nat) : Response × DB :=
  runHandler s (delete_task_go s task_id)

/-- A Python value handed to `jsonify`: either a JSON-serialisable value
or the SQLAlchemy expression object `db.func.now()`, which is not. -/
inductive PyVal where
  | json : Json → PyVal
  | sqlFuncNow : PyVal
deriving Repr

/-- `jsonify` on a dict of Python values: serialisation is eager and
raises `TypeError` on the first non-serialisable value. -/
def serializePyObj : List (String × PyVal) → Except PyExc (List (String × Json))
  | [] => .ok []
  | (k, .json j) :: rest => do
    let r ← serializePyObj rest
    return (k, j) :: r
  | (_, .sqlFuncNow) :: _ =>
    .error (.typeError "Object of type now is not JSON serializable")

/-- The `health_check` try-block.  `dbOk` is whether the trivial store
round-trip `db.session.execute('SELECT 1')` succeeds; when it fails it
raises a store error with description `dbErr`.  On success the handler
builds `{'status': 'healthy', 'database': 'connected',
'timestamp': db.func.now()}` and hands it to `jsonify`. -/
def health_check_go (dbOk : Bool) (dbErr : String) : Except PyExc Response := do
  if dbOk then
    let fields ← serializePyObj
      [("status", .json (.str "healthy")),
       ("database", .json (.str "connected")),
       ("timestamp", .sqlFuncNow)]
    return ⟨200, .obj fields⟩
  else
    .error (.dbError dbErr)

/-- The `health_check` handler (`GET /health`): its `except Exception`
clause answers `{'status': 'unhealthy', 'error': str(e)}, 500`. -/
def health_check (dbOk : Bool) (dbErr : String) : Response :=
  match health_check_go dbOk dbErr with
  | .ok r => r
  | .error e => ⟨500, .obj [("status", .str "unhealthy"), ("error", .str e.str)]⟩

/-! ## Helper lemmas -/

/-- A successful primary-key lookup returns a row with that key. -/
theorem findTask_id {tasks : List Task} {id : Nat} {task : Task}
    (h : findTask tasks id = some task) : task.id = id := by
  have := List.find?_some h
  simpa using this

/-- Unfolding `findTask` one row at a time. -/
theorem findTask_cons (a : Task) (l : List Task) (id : Nat) :
    findTask (a :: l) id = if a.id == id then some a else findTask l id := by
  cases h : (a.id == id) <;> simp [findTask, List.find?_cons, h]

/-- Unfolding `replaceTask` one row at a time. -/
theorem replaceTask_cons (a : Task) (rest : List Task) (id : Nat) (t : Task) :
    replaceTask (a :: rest) id t =
      (if a.id == id then t else a) :: replaceTask rest id t := rfl

/-- Looking up the key again after `replaceTask` finds the new row. -/
theorem findTask_replaceTask {tasks : List Task} {id : Nat} {task : Task} (t : Task)
    (hid : t.id = id) (h : findTask tasks id = some task) :
    findTask (replaceTask tasks id t) id = some t := by
  induction tasks with
  | nil => simp [findTask] at h
  | cons a rest ih =>
    rw [replaceTask_cons]
    by_cases ha : (a.id == id) = true
    · rw [if_pos ha, findTask_cons, if_pos (by simp [hid])]
    · rw [findTask_cons, if_neg ha] at h
      rw [if_neg ha, findTask_cons, if_neg ha]
      exact ih h

/-- A non-empty dict is truthy. -/
theorem isEmpty_false_of_ne_nil {d : Body} (h : d ≠ []) : d.isEmpty = false := by
  cases d with
  | nil => exact absurd rfl h
  | cons a l => rfl

/-- `taskOrd` is transitive. -/
theorem taskOrd_trans (a b c : Task) : taskOrd a b → taskOrd b c → taskOrd a c := by
  simp only [taskOrd, decide_eq_true_eq]
  omega

/-- `taskOrd` is total. -/
theorem taskOrd_total (a b : Task) : taskOrd a b || taskOrd b a := by
  simp only [taskOrd, Bool.or_eq_true, decide_eq_true_eq]
  omega

/-- The listing is a permutation of the stored rows. -/
theorem sortedTasks_perm (l : List Task) : (sortedTasks l).Perm l :=
  List.mergeSort_perm l taskOrd

/-- The listing is ordered by `created_at` descending. -/
theorem sortedTasks_pairwise (l : List Task) :
    (sortedTasks l).Pairwise (fun a b => b.created_at ≤ a.created_at) := by
  have h := List.sorted_mergeSort taskOrd_trans taskOrd_total l
  exact h.imp (fun hab => by simpa [taskOrd] using hab)

/-- A successful Create leaves a row with the request's title and
creation instant in the store. -/
theorem create_task_mem (s : DB) (d : Body) (t : Nat) (v : Json)
    (h : jget d "title" = some v) :
    ∃ u ∈ (create_task s (some d) t).2.tasks, u.created_at = t ∧ u.title = v := by
  refine ⟨{ id := s.nextId, title := v, description := (jget d "description").getD (.str ""), completed := (jget d "completed").getD (.bool false), created_at := t, updated_at := t }, ?_, rfl, rfl⟩
  simp [create_task, h]

/-- Create never removes a stored row. -/
theorem create_task_mem_mono (s : DB) (body : Option Body) (t : Nat) {u : Task}
    (hu : u ∈ s.tasks) : u ∈ (create_task s body t).2.tasks := by
  cases body with
  | none => simpa [create_task] using hu
  | some d =>
    cases hjt : jget d "title" with
    | none => simpa [create_task, hjt] using hu
    | some v =>
      simp only [create_task, hjt, List.mem_append]
      exact Or.inl hu

/-- Sample row and store used by the concrete witnesses below. -/
def sampleTask : Task :=
  { id := 1, title := .str "A", description := .str "d",
    completed := .bool false, created_at := 3, updated_at := 3 }

def sampleDB : DB := { tasks := [sampleTask], nextId := 2 }

/-! ## Claim theorems -/

/-- Claim C4: a Create request whose body is absent or lacks a `title`
key answers HTTP 400 with error "Title is required" and leaves the
store untouched: no row is persisted and the List result is
unchanged. -/
theorem create_task_missing_title (s : DB) (body : Option Body) (t : Nat)
    (h : ∀ d, body = some d → jget d "title" = none) :
    create_task s body t = ({ status := 400, body := errBody "Title is required" }, s) ∧
    get_tasks (create_task s body t).2 = get_tasks s := by
  cases body with
  | none => exact ⟨rfl, rfl⟩
  | some d =>
    have hd := h d rfl
    refine ⟨?_, ?_⟩ <;> simp [create_task, hd]

/-- Witness for C4: a concrete body carrying only `description`. -/
theorem create_task_missing_title_witness :
    (∀ d, (some [("description", Json.str "x")] : Option Body) = some d →
      jget d "title" = none) ∧
    (create_task sampleDB (some [("description", Json.str "x")]) 7 =
      ({ status := 400, body := errBody "Title is required" }, sampleDB) ∧
     get_tasks (create_task sampleDB (some [("description", Json.str "x")]) 7).2 =
      get_tasks sampleDB) := by
  have h : ∀ d, (some [("description", Json.str "x")] : Option Body) = some d →
      jget d "title" = none := by
    intro d hd
    cases hd
    rfl
  exact ⟨h, create_task_missing_title sampleDB (some [("description", Json.str "x")]) 7 h⟩

/-- Claim C6: a Create request with a `title` key answers HTTP 201 with
the created Task: `title` from the input, `description` from the input
or the empty string, `completed` from the input or `false`; the store
assigns the id (the autoincrement counter) and sets both timestamps to
the creation instant, so `created_at = updated_at`. -/
theorem create_task_with_title (s : DB) (d : Body) (t : Nat) (v : Json)
    (h : jget d "title" = some v) :
    create_task s (some d) t =
      ({ status := 201, body := Task.to_dict
          { id := s.nextId, title := v,
            description := (jget d "description").getD (.str ""),
            completed := (jget d "completed").getD (.bool false),
            created_at := t, updated_at := t } },
       { tasks := s.tasks ++
          [{ id := s.nextId, title := v,
             description := (jget d "description").getD (.str ""),
             completed := (jget d "completed").getD (.bool false),
             created_at := t, updated_at := t }],
         nextId := s.nextId + 1 }) := by
  simp [create_task, h]

/-- Witness for C6: creating with body containing only a title. -/
theorem create_task_with_title_witness :
    jget [("title", Json.str "A")] "title" = some (Json.str "A") ∧
    create_task sampleDB (some [("title", Json.str "A")]) 7 =
      ({ status := 201, body := Task.to_dict
          { id := 2, title := Json.str "A", description := Json.str "",
            completed := Json.bool false, created_at := 7, updated_at := 7 } },
       { tasks := [sampleTask,
          { id := 2, title := Json.str "A", description := Json.str "",
            completed := Json.bool false, created_at := 7, updated_at := 7 }],
         nextId := 3 }) :=
  ⟨rfl, create_task_with_title sampleDB [("title", Json.str "A")] 7 (Json.str "A") rfl⟩

/-- Claim C10: an Update of an existing identifier whose body parses to
the empty JSON object answers HTTP 400 "No data provided", exactly as
if the body were absent (the falsy-body check treats both alike), with
the store unchanged. -/
theorem update_task_empty_dict (s : DB) (id : Nat) (t : Nat) (task : Task)
    (hfind : findTask s.tasks id = some task) :
    update_task s id (some []) t =
      ({ status := 400, body := errBody "No data provided" }, s) ∧
    update_task s id (some []) t = update_task s id none t := by
  refine ⟨?_, ?_⟩ <;>
    simp [update_task, runHandler, update_task_go, get_or_404, hfind, dataFalsy]

/-- Witness for C10: the empty dict against the sample store. -/
theorem update_task_empty_dict_witness :
    findTask sampleDB.tasks 1 = some sampleTask ∧
    (update_task sampleDB 1 (some []) 5 =
      ({ status := 400, body := errBody "No data provided" }, sampleDB) ∧
     update_task sampleDB 1 (some []) 5 = update_task sampleDB 1 none 5) :=
  ⟨rfl, update_task_empty_dict sampleDB 1 5 sampleTask rfl⟩

/-- Claim C9: in an Update, a key present with value `null` overwrites
the field with `null` rather than keeping the old value — the
keep-existing default applies to absent keys only.  The staged merge
for `{"title": null}` (and likewise `{"description": null}`) carries
`null` in place of the old value.  For the nullable `description`
column the `null` is committed and answered 200; for `title` the staged
`null` attempt reaches the store's NOT NULL constraint, whose
`IntegrityError` the handler's `except Exception` converts to a 500
with rollback — in neither case is the old value silently kept in the
staged row. -/
theorem update_task_null_overwrites (s : DB) (id : Nat) (t : Nat) (task : Task)
    (hfind : findTask s.tasks id = some task) :
    mergedTask task [("title", Json.null)] t =
      { task with title := Json.null, updated_at := t } ∧
    mergedTask task [("description", Json.null)] t =
      { task with description := Json.null, updated_at := t } ∧
    update_task s id (some [("title", Json.null)]) t =
      ({ status := 500, body := errBody PyExc.integrityError.str }, s) ∧
    (task.title.isNull = false →
      update_task s id (some [("description", Json.null)]) t =
        ({ status := 200,
           body := Task.to_dict { task with description := Json.null, updated_at := t } },
         { s with tasks := replaceTask s.tasks id { task with description := Json.null, updated_at := t } })) := by
  have hm : mergedTask task [("title", Json.null)] t =
      { task with title := Json.null, updated_at := t } := rfl
  have hm2 : mergedTask task [("description", Json.null)] t =
      { task with description := Json.null, updated_at := t } := rfl
  refine ⟨hm, hm2, ?_, ?_⟩
  · simp [update_task, runHandler, update_task_go, get_or_404, hfind, dataFalsy, hm,
      Json.isNull]
  · intro htit
    simp [update_task, runHandler, update_task_go, get_or_404, hfind, dataFalsy, hm2,
      htit]

/-- Witness for C9: null title and null description against the sample
store, whose row has the non-null title "A". -/
theorem update_task_null_overwrites_witness :
    findTask sampleDB.tasks 1 = some sampleTask ∧
    (mergedTask sampleTask [("title", Json.null)] 5 =
      { sampleTask with title := Json.null, updated_at := 5 } ∧
     mergedTask sampleTask [("description", Json.null)] 5 =
      { sampleTask with description := Json.null, updated_at := 5 } ∧
     update_task sampleDB 1 (some [("title", Json.null)]) 5 =
      ({ status := 500, body := errBody PyExc.integrityError.str }, sampleDB) ∧
     (sampleTask.title.isNull = false →
      update_task sampleDB 1 (some [("description", Json.null)]) 5 =
        ({ status := 200,
           body := Task.to_dict { sampleTask with description := Json.null, updated_at := 5 } },
         { sampleDB with tasks := replaceTask sampleDB.tasks 1 { sampleTask with description := Json.null, updated_at := 5 } }))) :=
  ⟨rfl, update_task_null_overwrites sampleDB 1 5 sampleTask rfl⟩

/-- Claim C5: an Update of an existing Task replaces each of `title`,
`description`, `completed` exactly when the corresponding key is
present in the (non-empty) body; absent keys keep the stored value; the
id and `created_at` are untouched and the store refreshes `updated_at`
to the request instant, never below its previous value.  In particular
a body holding only `completed` leaves `title` and `description`
unchanged.  The hypothesis `htitle` keeps the merged row inside the
`title` column's NOT NULL constraint, so the commit succeeds — it holds
whenever the body's `title` (or, with `title` absent, the stored one)
is non-null, as on every store-reachable row. -/
theorem update_task_merge (s : DB) (id : Nat) (data : Body) (t : Nat) (task : Task)
    (hfind : findTask s.tasks id = some task) (hne : data ≠ [])
    (hclk : task.updated_at ≤ t)
    (htitle : (mergedTask task data t).title.isNull = false) :
    update_task s id (some data) t =
      ({ status := 200, body := Task.to_dict (mergedTask task data t) },
       { s with tasks := replaceTask s.tasks id (mergedTask task data t) }) ∧
    findTask (update_task s id (some data) t).2.tasks id = some (mergedTask task data t) ∧
    (mergedTask task data t).title = (jget data "title").getD task.title ∧
    (mergedTask task data t).description = (jget data "description").getD task.description ∧
    (mergedTask task data t).completed = (jget data "completed").getD task.completed ∧
    (mergedTask task data t).id = task.id ∧
    (mergedTask task data t).created_at = task.created_at ∧
    task.updated_at ≤ (mergedTask task data t).updated_at := by
  have hid : (mergedTask task data t).id = id := by
    simpa [mergedTask] using findTask_id hfind
  have heq : update_task s id (some data) t =
      ({ status := 200, body := Task.to_dict (mergedTask task data t) },
       { s with tasks := replaceTask s.tasks id (mergedTask task data t) }) := by
    simp [update_task, runHandler, update_task_go, get_or_404, hfind, dataFalsy,
      isEmpty_false_of_ne_nil hne, htitle]
  refine ⟨heq, ?_, rfl, rfl, rfl, rfl, rfl, hclk⟩
  rw [heq]
  exact findTask_replaceTask _ hid hfind

/-- Witness for C5: `{completed: true}` against the sample store. -/
theorem update_task_merge_witness :
    findTask sampleDB.tasks 1 = some sampleTask ∧
    ([("completed", Json.bool true)] : Body) ≠ [] ∧
    sampleTask.updated_at ≤ 5 ∧
    (mergedTask sampleTask [("completed", Json.bool true)] 5).title.isNull = false ∧
    (update_task sampleDB 1 (some [("completed", Json.bool true)]) 5 =
      ({ status := 200,
         body := Task.to_dict (mergedTask sampleTask [("completed", Json.bool true)] 5) },
       { sampleDB with tasks := replaceTask sampleDB.tasks 1 (mergedTask sampleTask [("completed", Json.bool true)] 5) }) ∧
     findTask (update_task sampleDB 1 (some [("completed", Json.bool true)]) 5).2.tasks 1 =
      some (mergedTask sampleTask [("completed", Json.bool true)] 5) ∧
     (mergedTask sampleTask [("completed", Json.bool true)] 5).title =
      (jget [("completed", Json.bool true)] "title").getD sampleTask.title ∧
     (mergedTask sampleTask [("completed", Json.bool true)] 5).description =
      (jget [("completed", Json.bool true)] "description").getD sampleTask.description ∧
     (mergedTask sampleTask [("completed", Json.bool true)] 5).completed =
      (jget [("completed", Json.bool true)] "completed").getD sampleTask.completed ∧
     (mergedTask sampleTask [("completed", Json.bool true)] 5).id = sampleTask.id ∧
     (mergedTask sampleTask [("completed", Json.bool true)] 5).created_at =
      sampleTask.created_at ∧
     sampleTask.updated_at ≤ (mergedTask sampleTask [("completed", Json.bool true)] 5).updated_at) :=
  ⟨rfl, by simp, by decide, rfl,
   update_task_merge sampleDB 1 [("completed", Json.bool true)] 5 sampleTask rfl
     (by simp) (by decide) rfl⟩

/-- Claim C7 counterexample: the claim says the 400 "No data provided"
occurs only when the body is absent, but a present body parsing to the
empty JSON object also triggers it (Python truthiness), so the claim as
stated is false. -/
theorem update_task_400_counterexample :
    (some ([] : Body) ≠ (none : Option Body)) ∧
    update_task sampleDB 1 (some []) 5 =
      ({ status := 400, body := errBody "No data provided" }, sampleDB) :=
  ⟨fun h => Option.noConfusion h, rfl⟩

/-- Claim C7 (amended): an Update of an existing identifier answers
HTTP 400 with error "No data provided", with the store unchanged,
exactly when the parsed body is falsy — absent or the empty JSON
object; for any non-empty body the handler does not produce that
response. -/
theorem update_task_400_iff (s : DB) (id : Nat) (body : Option Body) (t : Nat)
    (task : Task) (hfind : findTask s.tasks id = some task) :
    update_task s id body t = ({ status := 400, body := errBody "No data provided" }, s) ↔
      dataFalsy body = true := by
  cases hb : dataFalsy body with
  | true =>
    simp [update_task, runHandler, update_task_go, get_or_404, hfind, hb]
  | false =>
    simp only [update_task, runHandler, update_task_go, get_or_404, hfind, hb,
      Bool.false_eq_true, if_false]
    constructor
    · intro h
      have hst := congrArg (fun r => r.1.status) h
      cases hnull : (mergedTask task (body.getD []) t).title.isNull with
      | true => simp [hnull] at hst
      | false => simp [hnull] at hst
    · intro h
      cases h

/-- Witness for C7: the falsy direction at a concrete absent body. -/
theorem update_task_400_iff_witness :
    findTask sampleDB.tasks 1 = some sampleTask ∧
    (update_task sampleDB 1 none 5 =
      ({ status := 400, body := errBody "No data provided" }, sampleDB) ↔
      dataFalsy none = true) :=
  ⟨rfl, update_task_400_iff sampleDB 1 none 5 sampleTask rfl⟩

/-- Claim C1 (code defect): updating a non-existent identifier does not
answer 404.  `Task.query.get_or_404` raises `werkzeug.exceptions.NotFound`,
an `Exception` subclass, so the handler's own `except Exception` clause
catches it and answers HTTP 500 with `str(e)` as the error text.  The
failure still occurs before any body validation (the result is the same
with or without a body) and no row is created or altered. -/
theorem update_task_not_found_bug :
    update_task { tasks := [], nextId := 1 } 1 (some [("title", Json.str "X")]) 0 =
      ({ status := 500, body := errBody PyExc.notFound.str }, { tasks := [], nextId := 1 }) ∧
    update_task { tasks := [], nextId := 1 } 1 none 0 =
      ({ status := 500, body := errBody PyExc.notFound.str }, { tasks := [], nextId := 1 }) ∧
    (update_task { tasks := [], nextId := 1 } 1 none 0).1.status ≠ 404 :=
  ⟨rfl, rfl, by decide⟩

/-- Claim C2 (code defect): deleting an existing row answers 204 and
removes it, but repeating the Delete answers HTTP 500, not 404: the
`NotFound` raised by `get_or_404` is caught by the handler's own
`except Exception` clause and converted to a 500. -/
theorem delete_task_idempotence_bug :
    (delete_task sampleDB 1).1.status = 204 ∧
    (delete_task sampleDB 1).2 = { tasks := [], nextId := 2 } ∧
    delete_task (delete_task sampleDB 1).2 1 =
      ({ status := 500, body := errBody PyExc.notFound.str }, { tasks := [], nextId := 2 }) ∧
    (delete_task (delete_task sampleDB 1).2 1).1.status ≠ 404 :=
  ⟨rfl, rfl, rfl, by decide⟩

/-- Claim C3 (code defect): the health check never answers 200.  On a
reachable store the handler passes the unexecuted SQLAlchemy expression
`db.func.now()` to `jsonify`, whose eager serialisation raises
`TypeError` inside the `try:` block, so even the healthy path answers
HTTP 500 with status "unhealthy"; the unreachable-store path answers
500 with "unhealthy" and the failure description as the claim says. -/
theorem health_check_bug :
    health_check true "unused" =
      { status := 500, body := .obj [("status", .str "unhealthy"),
          ("error", .str "Object of type now is not JSON serializable")] } ∧
    (health_check true "unused").status ≠ 200 ∧
    health_check false "connection refused" =
      { status := 500, body := .obj [("status", .str "unhealthy"),
          ("error", .str "connection refused")] } :=
  ⟨rfl, by decide, rfl⟩

/-- Claim C8: the List operation returns all Task rows ordered by
`created_at` descending.  After creating T1 at instant t1 and then T2
at a later instant t2, a List returns the sorted rows (a permutation of
the store holding both new rows), and every position holding a row
created at t2 precedes every position holding a row created at t1. -/
theorem get_tasks_ordering (s : DB) (d1 d2 : Body) (t1 t2 : Nat) (v1 v2 : Json)
    (h1 : jget d1 "title" = some v1) (h2 : jget d2 "title" = some v2)
    (hlt : t1 < t2) :
    let s2 := (create_task (create_task s (some d1) t1).2 (some d2) t2).2
    let out := sortedTasks s2.tasks
    (get_tasks s2).1 = { status := 200, body := .arr (out.map Task.to_dict) } ∧
    out.Perm s2.tasks ∧
    out.Pairwise (fun a b => b.created_at ≤ a.created_at) ∧
    (∃ u ∈ out, u.created_at = t1 ∧ u.title = v1) ∧
    (∃ u ∈ out, u.created_at = t2 ∧ u.title = v2) ∧
    (∀ i j : Nat, ∀ hi : i < out.length, ∀ hj : j < out.length,
      (out.get ⟨i, hi⟩).created_at = t2 → (out.get ⟨j, hj⟩).created_at = t1 → i < j) := by
  intro s2 out
  have hperm : out.Perm s2.tasks := sortedTasks_perm s2.tasks
  have hpair : out.Pairwise (fun a b => b.created_at ≤ a.created_at) :=
    sortedTasks_pairwise s2.tasks
  have hmem : (∃ u ∈ s2.tasks, u.created_at = t1 ∧ u.title = v1) ∧
      (∃ u ∈ s2.tasks, u.created_at = t2 ∧ u.title = v2) := by
    constructor
    · obtain ⟨u, hu, hp⟩ := create_task_mem s d1 t1 v1 h1
      exact ⟨u, create_task_mem_mono _ _ _ hu, hp⟩
    · exact create_task_mem _ d2 t2 v2 h2
  refine ⟨rfl, hperm, hpair, ?_, ?_, ?_⟩
  · obtain ⟨u, hu, hp⟩ := hmem.1
    exact ⟨u, hperm.mem_iff.2 hu, hp⟩
  · obtain ⟨u, hu, hp⟩ := hmem.2
    exact ⟨u, hperm.mem_iff.2 hu, hp⟩
  · intro i j hi hj hti htj
    by_contra hij
    have hle : j ≤ i := Nat.le_of_not_lt hij
    rcases Nat.lt_or_ge j i with hji | hij2
    · have := (List.pairwise_iff_get.1 hpair) ⟨j, hj⟩ ⟨i, hi⟩ hji
      rw [hti, htj] at this
      omega
    · have heq : i = j := Nat.le_antisymm hij2 hle
      subst heq
      have := hti.symm.trans htj
      omega

/-- Witness for C8: two creations at instants 0 and 1 on the empty
store. -/
theorem get_tasks_ordering_witness :
    jget [("title", Json.str "A")] "title" = some (Json.str "A") ∧
    jget [("title", Json.str "B")] "title" = some (Json.str "B") ∧
    0 < 1 ∧
    (let s2 := (create_task (create_task { tasks := [], nextId := 1 }
        (some [("title", Json.str "A")]) 0).2 (some [("title", Json.str "B")]) 1).2
     let out := sortedTasks s2.tasks
     (get_tasks s2).1 = { status := 200, body := .arr (out.map Task.to_dict) } ∧
     out.Perm s2.tasks ∧
     out.Pairwise (fun a b => b.created_at ≤ a.created_at) ∧
     (∃ u ∈ out, u.created_at = 0 ∧ u.title = Json.str "A") ∧
     (∃ u ∈ out, u.created_at = 1 ∧ u.title = Json.str "B") ∧
     (∀ i j : Nat, ∀ hi : i < out.length, ∀ hj : j < out.length,
       (out.get ⟨i, hi⟩).created_at = 1 → (out.get ⟨j, hj⟩).created_at = 0 → i < j)) :=
  ⟨rfl, rfl, by decide,
   get_tasks_ordering { tasks := [], nextId := 1 }
     [("title", Json.str "A")] [("title", Json.str "B")] 0 1
     (Json.str "A") (Json.str "B") rfl rfl (by decide)⟩

end TaskApp
